import Mathlib

/-!
Shallow embedding of `@oarepo/vue-composition-popup-login` (src/library/index.ts):
the Need Matcher (`authorize`), the Session State Store (`check`), the Popup
Handshake Coordinator (waiter queue, `login`, `showLoginPopup`, the broadcast
channel `onmessage` handler, `_handleFailedLoginPopup`) and the Authorization
Orchestrator (`loginAndAuthorize`), together with theorems settling the
specification claims about them.

Conventions of the embedding:
* JS values that can appear inside an object need are modelled by `JVal`
  (numbers, strings and nested plain objects given as ordered field lists).
* A `Need` is the tagged union the source dispatches on with `typeof`:
  a string, a function, or an object.  JS functions are first-class closures;
  they are modelled by an identifier `fid` interpreted through an environment
  `F : Nat → AuthState → List Need → χ → Bool` passed to the evaluator, which
  mirrors the call `requiredNeed(state, needsProvided, extra)`.
* Asynchrony: the source awaits each function need and each network call in
  program order on a single thread, so the embedding is the corresponding
  sequential pure computation.
* Nullable parameters (`needsRequired || []`, `needsProvided || []`) are
  modelled with `Option`, `none` standing for `null`/`undefined`.
-/

/-- JSON-like values appearing in object needs: numbers, strings, and nested
plain objects represented as ordered association lists of fields. -/
inductive JVal : Type where
  | jnum (n : Int)
  | jstr (s : String)
  | jobj (fields : List (String × JVal))
deriving Repr

/-- Field lookup in a JS object modelled as an association list: the value of
the first field carrying the requested key. -/
def lookupField (k : String) : List (String × JVal) → Option JVal
  | [] => none
  | (k2, v) :: rest => if k2 == k then some v else lookupField k rest

mutual

/-- Modelled from the spec: the source delegates object-need matching to
lodash `isMatch(object, source)`, whose code is an external dependency, not
part of this repository.  Documented behaviour: a partial deep comparison --
every field of the `pattern` (lodash's `source`) must exist in the `target`
(lodash's `object`) with a matching value; pattern objects recurse, pattern
primitives must be equal; extra fields of the target are ignored. -/
def isMatchVal (pattern target : JVal) : Bool :=
  match pattern, target with
  | JVal.jobj pfs, JVal.jobj tfs => isMatchFields pfs tfs
  | JVal.jobj _, _ => false
  | JVal.jnum a, JVal.jnum b => a == b
  | JVal.jstr a, JVal.jstr b => a == b
  | _, _ => false
termination_by sizeOf pattern

/-- Every field of `pattern` must be present in `target` and match
(`isMatchVal`); extra fields of `target` are ignored. -/
def isMatchFields (pattern target : List (String × JVal)) : Bool :=
  match pattern with
  | [] => true
  | (k, pv) :: rest =>
      (match lookupField k target with
       | some tv => isMatchVal pv tv
       | none => false) && isMatchFields rest target
termination_by sizeOf pattern

end

/-- A need, as dispatched on by the source with `typeof`: a plain string, a
function (identified by `fid`, interpreted through the evaluator's function
environment), or a plain object. -/
inductive Need : Type where
  | str (s : String)
  | func (fid : Nat)
  | obj (fields : List (String × JVal))
deriving Repr

/-- `AuthenticationState`: `loggedIn` flag plus the needs provided to the
session (the further arbitrary user fields play no role in the claims). -/
structure AuthState : Type where
  loggedIn : Bool
  needsProvided : List Need
deriving Repr

/-- The test `needsProvided.indexOf(requiredNeed) >= 0` for a string
`requiredNeed`: JS `indexOf` compares with `===`, and a string is `===` only
to an equal string, never to a function or an object. -/
def stringInProvided (s : String) (needsProvided : List Need) : Bool :=
  needsProvided.any fun n =>
    match n with
    | Need.str t => t == s
    | _ => false

/-- The `for (const requiredNeed of needsRequired)` loop of `authorize`
(src/library/index.ts lines 166-191).  The second component of the result
records, in invocation order, the ids of the function needs actually called
(each `await requiredNeed(...)` of the source), so that short-circuiting can
be stated; the first component is the returned boolean. -/
def authorizeLoop {χ : Type} (F : Nat → AuthState → List Need → χ → Bool)
    (state : AuthState) (needsProvided : List Need) (extra : χ) :
    List Need → Bool × List Nat
  | [] => (false, [])
  | Need.str s :: rest =>
      if stringInProvided s needsProvided then (true, [])
      else authorizeLoop F state needsProvided extra rest
  | Need.func fid :: rest =>
      if F fid state needsProvided extra then (true, [fid])
      else
        let r := authorizeLoop F state needsProvided extra rest
        (r.1, fid :: r.2)
  | Need.obj o :: rest =>
      if needsProvided.any (fun n =>
          match n with
          | Need.str _ => false
          | Need.func _ => false
          | Need.obj t => isMatchFields o t) then (true, [])
      else authorizeLoop F state needsProvided extra rest

/-- `authorize(state, needsRequired, needsProvided, extra)`: coalesces the two
nullable lists (`needsProvided = needsProvided || []`,
`needsRequired = needsRequired || []`) and runs the matching loop. -/
def authorize {χ : Type} (F : Nat → AuthState → List Need → χ → Bool)
    (state : AuthState) (needsRequired needsProvided : Option (List Need))
    (extra : χ) : Bool :=
  (authorizeLoop F state (needsProvided.getD []) extra (needsRequired.getD [])).1

/-- The ids of the function needs `authorize` actually invokes, in call
order. -/
def authorizeInvoked {χ : Type} (F : Nat → AuthState → List Need → χ → Bool)
    (state : AuthState) (needsRequired needsProvided : Option (List Need))
    (extra : χ) : List Nat :=
  (authorizeLoop F state (needsProvided.getD []) extra (needsRequired.getD [])).2

/-!
Session State Store.  `check` (src/library/index.ts lines 118-129) works on
the shared reactive `loginState`; the embedding passes the cached state in and
reports the overwritten state and the returned state out, plus whether the
network fetch (`axios.get(stateUrl)`) was performed.  The raw response body
`resp.data` is modelled as an `AuthState` (its deserialization is a transport
detail outside the claims); `loginStateTransformer` is the optional
user-supplied transformer.
-/

/-- Result of one `check` call: whether the state endpoint was fetched, the
value of the shared `loginState` after the call, and the returned state. -/
structure CheckResult : Type where
  fetched : Bool
  newLoginState : AuthState
  result : AuthState
deriving Repr

/-- The transformer application of `check`: `loginStateTransformer(resp.data)`
when a transformer is configured, the raw payload otherwise. -/
def applyTransformer (tr : Option (AuthState → AuthState))
    (payload : AuthState) : AuthState :=
  match tr with
  | some t => t payload
  | none => payload

/-- `check(localStateSufficient)`: when the cached state shows logged-in and
the local state suffices, return the cached state untouched with no fetch;
otherwise fetch the state endpoint (whose transformed body is `payload`),
overwrite the shared `loginState` with the result unconditionally, and return
it. -/
def check (localStateSufficient : Bool) (cached : AuthState)
    (tr : Option (AuthState → AuthState)) (payload : AuthState) : CheckResult :=
  if cached.loggedIn && localStateSufficient then
    ⟨false, cached, cached⟩
  else
    let s := applyTransformer tr payload
    ⟨true, s, s⟩

/-!
Popup Handshake Coordinator.  `loginData.promises` is the pending-waiter
queue.  `login` (lines 131-145) enqueues two closures when the popup window
opened: `loginData.promises.splice(0, 0, () => check())` inserts a
state-refresh waiter at the FRONT of the queue, and
`loginData.promises.push((msg) => resolve(loginState.value.loggedIn))`
appends the promise-resolving waiter at the back.  `showLoginPopup`
(lines 147-152) pushes a single waiter resolving its promise with the
message.  Waiters are modelled by which closure they are, tagged with the id
of the `login()`/`showLoginPopup()` call that created them.
-/

/-- A queued waiter: the `() => check()` refresh closure of `login`, the
promise-resolving closure of `login`, or the `resolve` of `showLoginPopup`. -/
inductive Waiter : Type where
  | refresh (id : Nat)
  | resolveLogin (id : Nat)
  | resolvePopup (id : Nat)
deriving DecidableEq, Repr

/-- The queue mutation of a `login(id)` call whose popup window opened:
`splice(0, 0, () => check())` then `push(resolve-closure)`. -/
def loginEnqueue (id : Nat) (q : List Waiter) : List Waiter :=
  (Waiter.refresh id :: q) ++ [Waiter.resolveLogin id]

/-- The queue mutation of a `showLoginPopup(id)` call:
`loginData.promises.push(resolve)`. -/
def showLoginPopupEnqueue (id : Nat) (q : List Waiter) : List Waiter :=
  q ++ [Waiter.resolvePopup id]

/-- An enqueueing operation on the coordinator, for describing histories of
calls between two broadcast messages. -/
inductive CoordOp : Type where
  | loginOp (id : Nat)
  | popupOp (id : Nat)
deriving DecidableEq, Repr

/-- Apply one coordinator call to the queue. -/
def applyOp (q : List Waiter) : CoordOp → List Waiter
  | CoordOp.loginOp id => loginEnqueue id q
  | CoordOp.popupOp id => showLoginPopupEnqueue id q

/-- The queue after a history of calls, starting from the empty queue. -/
def runOps (ops : List CoordOp) : List Waiter :=
  ops.foldl applyOp []

/-- The chronological enqueue order of the same history: for a `login` call
the splice of the refresh waiter executes before the push of the resolver. -/
def enqueueSeq (ops : List CoordOp) : List Waiter :=
  (ops.map fun op =>
    match op with
    | CoordOp.loginOp id => [Waiter.refresh id, Waiter.resolveLogin id]
    | CoordOp.popupOp id => [Waiter.resolvePopup id]).flatten

/-- Observable state of the coordinator: the pending queue, the shared
`loginState`, and which promises have been settled -- `loginResolutions`
records `(id, value)` for each `login` promise resolved with
`loginState.value.loggedIn`, `popupResolutions` each `showLoginPopup` promise
resolved (with the message payload). -/
structure HandshakeState : Type where
  promises : List Waiter
  loginState : AuthState
  loginResolutions : List (Nat × Bool)
  popupResolutions : List Nat
deriving Repr

/-- Effect of invoking one waiter with the broadcast message: the refresh
closure re-runs `check()` with no argument, fetching the state endpoint and
overwriting `loginState` with the transformed body `fetched`; the `login`
resolver resolves with the current `loginState.loggedIn`; the
`showLoginPopup` resolver resolves with the message. -/
def invokeWaiter (fetched : AuthState) (st : HandshakeState) :
    Waiter → HandshakeState
  | Waiter.refresh _ => { st with loginState := fetched }
  | Waiter.resolveLogin id =>
      { st with loginResolutions :=
          st.loginResolutions ++ [(id, st.loginState.loggedIn)] }
  | Waiter.resolvePopup id =>
      { st with popupResolutions := st.popupResolutions ++ [id] }

/-- The inner `notify` function the `onmessage` handler defines
(src/library/index.ts lines 93-97): `for (const p of promises) await p(msg)`
over the captured queue, front to back. -/
def notify (fetched : AuthState) (st : HandshakeState)
    (captured : List Waiter) : HandshakeState :=
  captured.foldl (invokeWaiter fetched) st

/-- The `loginData.channel.onmessage` handler as written
(src/library/index.ts lines 89-98): it captures `loginData.promises`, resets
the queue to `[]`, and defines the inner `notify` drain -- but never calls
it, so no waiter is invoked and no resolution happens. -/
def onmessage (st : HandshakeState) : HandshakeState :=
  { st with promises := [] }

/-!
The popup-failure path.  `login` opens the popup synchronously; inside the
returned promise's executor, a null window handle routes to
`_handleFailedLoginPopup(reject)` (lines 101-116), which awaits the
configured `popupFailedNotifier()`: on `false` it rejects the promise with a
fixed message, on `true` it navigates the whole page to the login URL (the
promise is abandoned).  Otherwise the two waiters are enqueued and the
promise awaits the next broadcast message.
-/

/-- Outcome of a `login()` call, as far as its returned promise goes. -/
inductive LoginOutcome : Type where
  | awaitingMessage
  | rejected (msg : String)
  | redirected
deriving DecidableEq, Repr

/-- `_handleFailedLoginPopup`, applied to the notifier's decision
`redirectionOk`: reject with the fixed message, or redirect the page (URL
construction elided -- the claims do not inspect the target). -/
def handleFailedLoginPopup (redirectionOk : Bool) : LoginOutcome :=
  if !redirectionOk then
    LoginOutcome.rejected
      "Could not open popup window and redirection has not been allowed"
  else
    LoginOutcome.redirected

/-- `login()` (lines 131-145): `popupOpened` is whether `window.open`
returned a non-null handle, `redirectionOk` the value the popup-failed
notifier resolves to (consulted only on the failure path), `id` tags this
call's waiters, `q` is the pending queue.  Returns the promise outcome and
the queue after the call. -/
def login (popupOpened redirectionOk : Bool) (id : Nat) (q : List Waiter) :
    LoginOutcome × List Waiter :=
  if !popupOpened then (handleFailedLoginPopup redirectionOk, q)
  else (LoginOutcome.awaitingMessage, loginEnqueue id q)

/-!
Authorization Orchestrator.  `loginAndAuthorize` (lines 194-204) runs
`check(true)`, shows the login popup when the resulting state is not logged
in and re-reads `loginState.value.loggedIn` after that wait completes
(`afterPopup` is the shared state at that moment, produced by whatever waiters
ran meanwhile), and finally delegates to `authorize` with the state
`authState` captured from `check(true)` and that state's own provided needs.
-/

/-- `loginAndAuthorize(needsRequired, extra)`: `cached`, `tr` and `payload`
feed the inner `check(true)` call exactly as in `check`; `afterPopup` is the
shared `loginState` once the `showLoginPopup` wait completes. -/
def loginAndAuthorize {χ : Type} (F : Nat → AuthState → List Need → χ → Bool)
    (cached : AuthState) (tr : Option (AuthState → AuthState))
    (payload : AuthState) (afterPopup : AuthState)
    (needsRequired : Option (List Need)) (extra : χ) : Bool :=
  let authState := (check true cached tr payload).result
  if !authState.loggedIn then
    if !afterPopup.loggedIn then false
    else authorize F authState needsRequired (some authState.needsProvided) extra
  else authorize F authState needsRequired (some authState.needsProvided) extra

/-- Discriminates the `typeof requiredNeed === 'function'` branch: whether a
need is a function need. -/
def isFuncNeed : Need → Bool
  | Need.func _ => true
  | _ => false

/-! Helper lemmas. -/

/-- A drain started with the shared state already overwritten by the fetched
state keeps it there: the refresh waiter re-sets it to the same fetched state
and the resolvers do not touch it. -/
theorem notify_loginState_fixed (fetched : AuthState) (captured : List Waiter) :
    ∀ st : HandshakeState, st.loginState = fetched →
      (notify fetched st captured).loginState = fetched := by
  induction captured with
  | nil => intro st h; exact h
  | cons w rest ih =>
      intro st h
      show (notify fetched (invokeWaiter fetched st w) rest).loginState = fetched
      apply ih
      cases w with
      | refresh id => rfl
      | resolveLogin id => simpa [invokeWaiter] using h
      | resolvePopup id => simpa [invokeWaiter] using h

/-- Claim C4: `authorize` with an empty required-needs list returns false for
every state, provided list and extra context. -/
theorem authorize_empty_required_false {χ : Type}
    (F : Nat → AuthState → List Need → χ → Bool) (state : AuthState)
    (needsProvided : Option (List Need)) (extra : χ) :
    authorize F state (some []) needsProvided extra = false := rfl

/-- Claim C8: `check(true)` returns the cached state with no fetch whenever
the cached state shows logged-in; `check(false)` always fetches, applies the
optional transformer, and unconditionally overwrites the shared state with
the result before returning it. -/
theorem check_fast_path_and_unconditional_overwrite :
    (∀ (cached : AuthState) (tr : Option (AuthState → AuthState))
       (payload : AuthState), cached.loggedIn = true →
      check true cached tr payload = ⟨false, cached, cached⟩) ∧
    (∀ (cached : AuthState) (tr : Option (AuthState → AuthState))
       (payload : AuthState),
      check false cached tr payload =
        ⟨true, applyTransformer tr payload, applyTransformer tr payload⟩) := by
  constructor
  · intro cached tr payload h
    simp [check, h]
  · intro cached tr payload
    simp [check]

/-- Witness for C8 at a concrete logged-in cached state. -/
theorem check_fast_path_witness :
    check true ⟨true, [Need.str "admin"]⟩ none ⟨false, []⟩ =
      ⟨false, ⟨true, [Need.str "admin"]⟩, ⟨true, [Need.str "admin"]⟩⟩ :=
  check_fast_path_and_unconditional_overwrite.1
    ⟨true, [Need.str "admin"]⟩ none ⟨false, []⟩ rfl

/-- Claim C9: when the popup window cannot be opened and the popup-failed
notifier resolves false, the promise returned by `login()` rejects with the
descriptive message and no redirect is performed; the queue is untouched. -/
theorem login_popup_blocked_redirect_declined (id : Nat) (q : List Waiter) :
    login false false id q =
      (LoginOutcome.rejected
        "Could not open popup window and redirection has not been allowed", q) ∧
    (login false false id q).1 ≠ LoginOutcome.redirected := by
  refine ⟨rfl, ?_⟩
  simp [login, handleFailedLoginPopup]

/-- Claim C1 (code bug): after two `login()` calls, the `onmessage` handler
clears the queue but resolves nothing -- it defines the inner `notify` drain
and never calls it -- whereas that very drain, had it been called on the
captured queue, would have invoked all four waiters and resolved both login
promises with the same refreshed `loggedIn` flag. -/
theorem onmessage_never_invokes_queued_waiters :
    onmessage ⟨runOps [CoordOp.loginOp 1, CoordOp.loginOp 2],
               ⟨false, []⟩, [], []⟩ =
      ⟨[], ⟨false, []⟩, [], []⟩ ∧
    notify ⟨true, []⟩ ⟨[], ⟨false, []⟩, [], []⟩
        (runOps [CoordOp.loginOp 1, CoordOp.loginOp 2]) =
      ⟨[], ⟨true, []⟩, [(1, true), (2, true)], []⟩ := by
  exact ⟨rfl, rfl⟩

/-- Claim C3 counterexample: with a `showLoginPopup` waiter already queued, a
`login()` call splices its refresh waiter to the FRONT of the queue, so the
queue (the order the drain invokes) differs from the chronological enqueue
order -- waiters are not invoked in enqueue order. -/
theorem waiter_queue_differs_from_enqueue_order :
    runOps [CoordOp.popupOp 0, CoordOp.loginOp 1] =
      [Waiter.refresh 1, Waiter.resolvePopup 0, Waiter.resolveLogin 1] ∧
    enqueueSeq [CoordOp.popupOp 0, CoordOp.loginOp 1] =
      [Waiter.resolvePopup 0, Waiter.refresh 1, Waiter.resolveLogin 1] ∧
    runOps [CoordOp.popupOp 0, CoordOp.loginOp 1] ≠
      enqueueSeq [CoordOp.popupOp 0, CoordOp.loginOp 1] := by
  refine ⟨rfl, rfl, ?_⟩
  decide

/-- Claim C3 as amended: for every prior queue state, `login(id)` places its
state-refresh waiter at the head of the queue and its promise-resolving
waiter at the back, so the refresh waiter precedes the resolver of the same
call (indeed every queued waiter), and a drain of the resulting queue
resolves that call's promise with the refreshed state's `loggedIn` flag. -/
theorem login_refresh_precedes_resolver (id : Nat) (q : List Waiter)
    (fetched : AuthState) (st : HandshakeState) :
    (loginEnqueue id q).head? = some (Waiter.refresh id) ∧
    (loginEnqueue id q).getLast? = some (Waiter.resolveLogin id) ∧
    (notify fetched st (loginEnqueue id q)).loginResolutions.getLast? =
      some (id, fetched.loggedIn) := by
  refine ⟨rfl, ?_, ?_⟩
  · show ((Waiter.refresh id :: q) ++ [Waiter.resolveLogin id]).getLast? = _
    exact List.getLast?_concat _
  · show (notify fetched st
      ((Waiter.refresh id :: q) ++ [Waiter.resolveLogin id])).loginResolutions.getLast? = _
    rw [List.cons_append]
    show (notify fetched (invokeWaiter fetched st (Waiter.refresh id))
      (q ++ [Waiter.resolveLogin id])).loginResolutions.getLast? = _
    rw [show notify fetched (invokeWaiter fetched st (Waiter.refresh id))
          (q ++ [Waiter.resolveLogin id]) =
        invokeWaiter fetched
          (notify fetched (invokeWaiter fetched st (Waiter.refresh id)) q)
          (Waiter.resolveLogin id) from List.foldl_append ..]
    simp only [invokeWaiter, List.getLast?_concat]
    rw [notify_loginState_fixed fetched q _ rfl]

/-- Claim C10: `authorize` tolerates null lists.  A null required list is
coalesced to the empty list, so the result is false; a null provided list is
coalesced to the empty list, so no string or object need is ever satisfied
(for required lists containing no function need, the result is false). -/
theorem authorize_null_lists :
    (∀ (χ : Type) (F : Nat → AuthState → List Need → χ → Bool)
       (state : AuthState) (needsProvided : Option (List Need)) (extra : χ),
      authorize F state none needsProvided extra = false) ∧
    (∀ (χ : Type) (F : Nat → AuthState → List Need → χ → Bool)
       (state : AuthState) (extra : χ) (l : List Need),
      (∀ n ∈ l, isFuncNeed n = false) →
      authorize F state (some l) none extra = false) := by
  constructor
  · intro χ F state needsProvided extra; rfl
  · intro χ F state extra l h
    induction l with
    | nil => rfl
    | cons n rest ih =>
        have hrest : ∀ m ∈ rest, isFuncNeed m = false := fun m hm =>
          h m (List.mem_cons_of_mem _ hm)
        cases n with
        | str s =>
            simpa [authorize, authorizeLoop, stringInProvided] using ih hrest
        | func fid =>
            have hn := h (Need.func fid) (List.mem_cons_self _ _)
            simp [isFuncNeed] at hn
        | obj o =>
            simpa [authorize, authorizeLoop] using ih hrest

/-- Witness for C10: a null required list, and a null provided list against a
string and an object need. -/
theorem authorize_null_lists_witness :
    authorize (fun (_ : Nat) (_ : AuthState) (_ : List Need) (_ : Unit) => false)
      ⟨false, []⟩ none (some [Need.str "admin"]) () = false ∧
    authorize (fun (_ : Nat) (_ : AuthState) (_ : List Need) (_ : Unit) => false)
      ⟨false, []⟩ (some [Need.str "admin", Need.obj [("a", JVal.jnum 1)]])
      none () = false :=
  ⟨authorize_null_lists.1 Unit _ ⟨false, []⟩ (some [Need.str "admin"]) (),
   authorize_null_lists.2 Unit _ ⟨false, []⟩ ()
     [Need.str "admin", Need.obj [("a", JVal.jnum 1)]]
     (by intro n hn; simp only [List.mem_cons, List.not_mem_nil, or_false] at hn
         rcases hn with rfl | rfl <;> rfl)⟩

/-- If a string need `s` occurs anywhere in the required list and `s` occurs
verbatim among the provided needs, the matching loop returns true. -/
theorem authorizeLoop_fst_of_string_mem {χ : Type}
    (F : Nat → AuthState → List Need → χ → Bool) (state : AuthState)
    (p : List Need) (extra : χ) (s : String)
    (hs : stringInProvided s p = true) :
    ∀ l1 l2 : List Need,
      (authorizeLoop F state p extra (l1 ++ Need.str s :: l2)).1 = true := by
  intro l1
  induction l1 with
  | nil => intro l2; simp [authorizeLoop, hs]
  | cons n rest ih =>
      intro l2
      cases n with
      | str t =>
          cases h : stringInProvided t p <;>
            simp [authorizeLoop, h, ih l2]
      | func fid =>
          cases h : F fid state p extra <;>
            simp [authorizeLoop, h, ih l2]
      | obj o =>
          cases h : p.any (fun n =>
              match n with
              | Need.str _ => false
              | Need.func _ => false
              | Need.obj t => isMatchFields o t) <;>
            simp [authorizeLoop, h, ih l2]

/-- On a required list made only of string needs, the matching loop returns
exactly whether some required string occurs verbatim among the provided
needs. -/
theorem authorizeLoop_fst_strings {χ : Type}
    (F : Nat → AuthState → List Need → χ → Bool) (state : AuthState)
    (p : List Need) (extra : χ) :
    ∀ ss : List String,
      (authorizeLoop F state p extra (ss.map Need.str)).1 =
        ss.any (fun s => stringInProvided s p) := by
  intro ss
  induction ss with
  | nil => rfl
  | cons s rest ih =>
      cases h : stringInProvided s p <;>
        simp [authorizeLoop, h, ih]

/-- Claim C5 counterexample: the required list `["a", "b"]` contains the
string need `"b"`, and `authorize` returns true on provided `["a"]` even
though `"b"` does not appear verbatim there -- so "true iff the string need
appears verbatim" fails for required lists with further needs. -/
theorem authorize_string_iff_counterexample :
    authorize (fun (_ : Nat) (_ : AuthState) (_ : List Need) (_ : Unit) => false)
      ⟨false, []⟩ (some [Need.str "a", Need.str "b"])
      (some [Need.str "a"]) () = true ∧
    stringInProvided "b" [Need.str "a"] = false :=
  ⟨rfl, rfl⟩

/-- Claim C5 as amended: if a string need `s` occurs in the required list and
`s` appears verbatim among the provided needs then `authorize` returns true;
for required lists consisting only of string needs the converse also holds --
the result is true exactly when some required string appears verbatim; in
particular required `["admin"]` with provided `[]` gives false and with
provided `["admin", "editor"]` gives true. -/
theorem authorize_string_needs_verbatim :
    (∀ (χ : Type) (F : Nat → AuthState → List Need → χ → Bool)
       (state : AuthState) (l1 l2 : List Need) (s : String) (p : List Need)
       (extra : χ),
      stringInProvided s p = true →
      authorize F state (some (l1 ++ Need.str s :: l2)) (some p) extra = true) ∧
    (∀ (χ : Type) (F : Nat → AuthState → List Need → χ → Bool)
       (state : AuthState) (ss : List String) (p : List Need) (extra : χ),
      authorize F state (some (ss.map Need.str)) (some p) extra =
        ss.any (fun s => stringInProvided s p)) ∧
    (∀ (χ : Type) (F : Nat → AuthState → List Need → χ → Bool)
       (state : AuthState) (extra : χ),
      authorize F state (some [Need.str "admin"]) (some []) extra = false ∧
      authorize F state (some [Need.str "admin"])
        (some [Need.str "admin", Need.str "editor"]) extra = true) := by
  refine ⟨?_, ?_, ?_⟩
  · intro χ F state l1 l2 s p extra hs
    exact authorizeLoop_fst_of_string_mem F state p extra s hs l1 l2
  · intro χ F state ss p extra
    exact authorizeLoop_fst_strings F state p extra ss
  · intro χ F state extra
    exact ⟨rfl, rfl⟩

/-- Witness for the amended C5 at concrete inputs. -/
theorem authorize_string_needs_verbatim_witness :
    authorize (fun (_ : Nat) (_ : AuthState) (_ : List Need) (_ : Unit) => false)
      ⟨false, []⟩ (some ([Need.obj []] ++ Need.str "admin" :: []))
      (some [Need.str "admin", Need.str "editor"]) () = true :=
  authorize_string_needs_verbatim.1 Unit _ ⟨false, []⟩ [Need.obj []] []
    "admin" [Need.str "admin", Need.str "editor"] () rfl

/-- On a required list made only of function needs, the matching loop returns
exactly whether some function need evaluates truthy. -/
theorem authorizeLoop_fst_funcs {χ : Type}
    (F : Nat → AuthState → List Need → χ → Bool) (state : AuthState)
    (p : List Need) (extra : χ) :
    ∀ fids : List Nat,
      (authorizeLoop F state p extra (fids.map Need.func)).1 =
        fids.any (fun fid => F fid state p extra) := by
  intro fids
  induction fids with
  | nil => rfl
  | cons fid rest ih =>
      cases h : F fid state p extra <;>
        simp [authorizeLoop, h, ih]

/-- On a required list of function needs whose prefix `l1` all evaluate falsy
and whose next entry `g` evaluates truthy, the matching loop returns true and
its invocation trace is exactly `l1 ++ [g]`: the function needs of `l2` are
never called. -/
theorem authorizeLoop_funcs_shortcircuit {χ : Type}
    (F : Nat → AuthState → List Need → χ → Bool) (state : AuthState)
    (p : List Need) (extra : χ) (g : Nat) (hg : F g state p extra = true) :
    ∀ l1 : List Nat, (∀ fid ∈ l1, F fid state p extra = false) →
      ∀ l2 : List Nat,
        authorizeLoop F state p extra ((l1 ++ g :: l2).map Need.func) =
          (true, l1 ++ [g]) := by
  intro l1
  induction l1 with
  | nil => intro _ l2; simp [authorizeLoop, hg]
  | cons f rest ih =>
      intro h l2
      have hf : F f state p extra = false := h f (List.mem_cons_self _ _)
      have hrest : ∀ fid ∈ rest, F fid state p extra = false := fun fid hm =>
        h fid (List.mem_cons_of_mem _ hm)
      have ihh := ih hrest l2
      simp only [List.map_append, List.map_cons] at ihh
      simp [authorizeLoop, hf, ihh]

/-- Claim C6: on required lists containing only function needs, `authorize`
returns true iff some function need evaluates truthy with
`(state, providedNeeds, extraContext)`; they are evaluated in declaration
order, evaluation stops at the first truthy one, and the invocation trace of
a run whose first truthy need is `g` is exactly the falsy prefix followed by
`g` -- the function needs after `g` are never invoked. -/
theorem authorize_function_needs_shortcircuit :
    (∀ (χ : Type) (F : Nat → AuthState → List Need → χ → Bool)
       (state : AuthState) (fids : List Nat) (p : List Need) (extra : χ),
      authorize F state (some (fids.map Need.func)) (some p) extra =
        fids.any (fun fid => F fid state p extra)) ∧
    (∀ (χ : Type) (F : Nat → AuthState → List Need → χ → Bool)
       (state : AuthState) (l1 : List Nat) (g : Nat) (l2 : List Nat)
       (p : List Need) (extra : χ),
      (∀ fid ∈ l1, F fid state p extra = false) →
      F g state p extra = true →
      authorize F state (some ((l1 ++ g :: l2).map Need.func)) (some p) extra
          = true ∧
      authorizeInvoked F state (some ((l1 ++ g :: l2).map Need.func)) (some p)
          extra = l1 ++ [g]) := by
  constructor
  · intro χ F state fids p extra
    exact authorizeLoop_fst_funcs F state p extra fids
  · intro χ F state l1 g l2 p extra h1 hg
    have h := authorizeLoop_funcs_shortcircuit F state p extra g hg l1 h1 l2
    constructor
    · show (authorizeLoop F state p extra ((l1 ++ g :: l2).map Need.func)).1 = true
      rw [h]
    · show (authorizeLoop F state p extra ((l1 ++ g :: l2).map Need.func)).2 = l1 ++ [g]
      rw [h]

/-- Witness for C6: function needs `[1, 2, 3]` where only `2` is truthy --
the run returns true and invokes exactly `1` then `2`, never `3`. -/
theorem authorize_function_needs_shortcircuit_witness :
    authorize (fun (fid : Nat) (_ : AuthState) (_ : List Need) (_ : Unit) =>
        fid == 2)
      ⟨false, []⟩ (some (([1] ++ 2 :: [3]).map Need.func)) (some []) () = true ∧
    authorizeInvoked (fun (fid : Nat) (_ : AuthState) (_ : List Need) (_ : Unit) =>
        fid == 2)
      ⟨false, []⟩ (some (([1] ++ 2 :: [3]).map Need.func)) (some []) () =
      [1] ++ [2] :=
  authorize_function_needs_shortcircuit.2 Unit
    (fun (fid : Nat) _ _ _ => fid == 2) ⟨false, []⟩ [1] 2 [3] [] ()
    (by intro fid hm
        simp only [List.mem_cons, List.not_mem_nil, or_false] at hm
        subst hm; rfl)
    rfl

/-- The candidate test of the object branch of `authorize`: a provided need
matches the required object `o` only when it is itself an object and lodash
`isMatch` holds. -/
theorem authorizeLoop_fst_single_obj {χ : Type}
    (F : Nat → AuthState → List Need → χ → Bool) (state : AuthState)
    (p : List Need) (extra : χ) (o : List (String × JVal)) :
    (authorizeLoop F state p extra [Need.obj o]).1 =
      p.any (fun n =>
        match n with
        | Need.str _ => false
        | Need.func _ => false
        | Need.obj t => isMatchFields o t) := by
  cases h : p.any (fun n =>
      match n with
      | Need.str _ => false
      | Need.func _ => false
      | Need.obj t => isMatchFields o t) <;>
    simp [authorizeLoop, h]

/-- Claim C7: a required object need is satisfied iff some provided need that
is itself an object (never a string or a function) contains all its fields in
the sense of lodash partial deep matching; `{a: 1}` matches provided
`[{a: 1, b: 2}]` but not `[{a: 2}]`. -/
theorem authorize_object_need_subset_match :
    (∀ (χ : Type) (F : Nat → AuthState → List Need → χ → Bool)
       (state : AuthState) (o : List (String × JVal)) (p : List Need)
       (extra : χ),
      authorize F state (some [Need.obj o]) (some p) extra = true ↔
        ∃ t, Need.obj t ∈ p ∧ isMatchFields o t = true) ∧
    (∀ (χ : Type) (F : Nat → AuthState → List Need → χ → Bool)
       (state : AuthState) (o : List (String × JVal)) (ss : List String)
       (fids : List Nat) (extra : χ),
      authorize F state (some [Need.obj o])
        (some (ss.map Need.str ++ fids.map Need.func)) extra = false) ∧
    (∀ (χ : Type) (F : Nat → AuthState → List Need → χ → Bool)
       (state : AuthState) (extra : χ),
      authorize F state (some [Need.obj [("a", JVal.jnum 1)]])
        (some [Need.obj [("a", JVal.jnum 1), ("b", JVal.jnum 2)]]) extra
          = true ∧
      authorize F state (some [Need.obj [("a", JVal.jnum 1)]])
        (some [Need.obj [("a", JVal.jnum 2)]]) extra = false) := by
  refine ⟨?_, ?_, ?_⟩
  · intro χ F state o p extra
    show (authorizeLoop F state p extra [Need.obj o]).1 = true ↔ _
    rw [authorizeLoop_fst_single_obj, List.any_eq_true]
    constructor
    · rintro ⟨n, hn, hpn⟩
      cases n with
      | str s => simp at hpn
      | func fid => simp at hpn
      | obj t => exact ⟨t, hn, hpn⟩
    · rintro ⟨t, ht, hm⟩
      exact ⟨Need.obj t, ht, hm⟩
  · intro χ F state o ss fids extra
    show (authorizeLoop F state _ extra [Need.obj o]).1 = false
    rw [authorizeLoop_fst_single_obj]
    simp
  · intro χ F state extra
    constructor
    · simp [authorize, authorizeLoop, isMatchFields, isMatchVal, lookupField]
    · simp [authorize, authorizeLoop, isMatchFields, isMatchVal, lookupField]

/-- Claim C2: `loginAndAuthorize` first trusts a cached logged-in state (the
result then depends only on the cached state and no fetch happens); when the
state from `check(true)` is not logged in it goes through the popup wait and
returns false immediately when the shared state is still not logged in
afterward; when logged in, it delegates to `authorize` with the state
captured from `check(true)` and that state's own provided needs. -/
theorem loginAndAuthorize_flow :
    (∀ (χ : Type) (F : Nat → AuthState → List Need → χ → Bool)
       (cached : AuthState) (tr : Option (AuthState → AuthState))
       (payload afterPopup : AuthState) (needsRequired : Option (List Need))
       (extra : χ),
      cached.loggedIn = true →
      (check true cached tr payload).fetched = false ∧
      loginAndAuthorize F cached tr payload afterPopup needsRequired extra =
        authorize F cached needsRequired (some cached.needsProvided) extra) ∧
    (∀ (χ : Type) (F : Nat → AuthState → List Need → χ → Bool)
       (cached : AuthState) (tr : Option (AuthState → AuthState))
       (payload afterPopup : AuthState) (needsRequired : Option (List Need))
       (extra : χ),
      cached.loggedIn = false →
      (applyTransformer tr payload).loggedIn = false →
      afterPopup.loggedIn = false →
      loginAndAuthorize F cached tr payload afterPopup needsRequired extra =
        false) ∧
    (∀ (χ : Type) (F : Nat → AuthState → List Need → χ → Bool)
       (cached : AuthState) (tr : Option (AuthState → AuthState))
       (payload afterPopup : AuthState) (needsRequired : Option (List Need))
       (extra : χ),
      cached.loggedIn = false →
      (applyTransformer tr payload).loggedIn = true →
      loginAndAuthorize F cached tr payload afterPopup needsRequired extra =
        authorize F (applyTransformer tr payload) needsRequired
          (some (applyTransformer tr payload).needsProvided) extra) ∧
    (∀ (χ : Type) (F : Nat → AuthState → List Need → χ → Bool)
       (cached : AuthState) (tr : Option (AuthState → AuthState))
       (payload afterPopup : AuthState) (needsRequired : Option (List Need))
       (extra : χ),
      cached.loggedIn = false →
      (applyTransformer tr payload).loggedIn = false →
      afterPopup.loggedIn = true →
      loginAndAuthorize F cached tr payload afterPopup needsRequired extra =
        authorize F (applyTransformer tr payload) needsRequired
          (some (applyTransformer tr payload).needsProvided) extra) := by
  refine ⟨?_, ?_, ?_, ?_⟩
  · intro χ F cached tr payload afterPopup needsRequired extra h
    constructor
    · simp [check, h]
    · simp [loginAndAuthorize, check, h]
  · intro χ F cached tr payload afterPopup needsRequired extra h1 h2 h3
    simp [loginAndAuthorize, check, h1, h2, h3]
  · intro χ F cached tr payload afterPopup needsRequired extra h1 h2
    simp [loginAndAuthorize, check, h1, h2]
  · intro χ F cached tr payload afterPopup needsRequired extra h1 h2 h3
    simp [loginAndAuthorize, check, h1, h2, h3]

/-- Witness for C2: a not-logged-in cached state, a not-logged-in fetched
state and a still-not-logged-in state after the popup wait give false. -/
theorem loginAndAuthorize_flow_witness :
    loginAndAuthorize (fun (_ : Nat) (_ : AuthState) (_ : List Need) (_ : Unit) => true)
      ⟨false, []⟩ none ⟨false, []⟩ ⟨false, []⟩ (some [Need.str "admin"]) () =
      false :=
  loginAndAuthorize_flow.2.1 Unit _ ⟨false, []⟩ none ⟨false, []⟩ ⟨false, []⟩
    (some [Need.str "admin"]) () rfl rfl rfl
